import Mathlib

/-!
Verification of the rate-limiting subsystem of the supabase-auth-boilerplate
repository.

The embedding follows the TypeScript sources:
* `src/constants/rate-limit.ts` — the static window-policy table `RATE_LIMIT_CONFIG`;
* `src/lib/rate-limit.ts` — the sequential multi-scope checkers
  `checkSignupRateLimit` / `checkLoginRateLimit` and the administrative
  `resetRateLimit`;
* an unnamed second variant of the same module (parallel `Promise.all`
  evaluation), embedded as `checkSignupRateLimitP`;
* `src/app/api/auth/signup/route.ts` — the client-address extractor `getClientIp`.

The sliding-window counting itself lives in the vendor `@upstash/ratelimit`
SDK, which is not part of the repository; it is modelled from the
specification (see `slidingWindowLimit` below).

Times are natural numbers of milliseconds.  The remote counter store is a
partial map from string keys to two-bucket window states; a failure oracle
`F : String → Bool` says which store calls throw `StoreUnavailable`.
-/

namespace RateLimit

/-- One row of the window-policy table: admitted count, window length in
milliseconds, and the key-namespace string (`LIMIT` / `WINDOW` / `PREFIX`
in `src/constants/rate-limit.ts`; the last field is renamed here). -/
structure ScopeConfig where
  LIMIT : Nat
  WINDOW : Nat
  pfx : String
deriving DecidableEq

/-- Policies of one use case (`SIGNUP` or `LOGIN`). -/
structure UseCaseConfig where
  IP : ScopeConfig
  EMAIL : ScopeConfig
  GLOBAL : ScopeConfig
deriving DecidableEq

/-- The whole static table. -/
structure Config where
  SIGNUP : UseCaseConfig
  LOGIN : UseCaseConfig
deriving DecidableEq

/-- `RATE_LIMIT_CONFIG` from `src/constants/rate-limit.ts`, windows converted
to milliseconds ("15 m" = 900000, "1 h" = 3600000, "1 m" = 60000). -/
def RATE_LIMIT_CONFIG : Config :=
  { SIGNUP :=
      { IP := { LIMIT := 3, WINDOW := 900000, pfx := "ratelimit:signup:ip:" }
        EMAIL := { LIMIT := 5, WINDOW := 3600000, pfx := "ratelimit:signup:email:" }
        GLOBAL := { LIMIT := 100, WINDOW := 60000, pfx := "ratelimit:signup:global:" } }
    LOGIN :=
      { IP := { LIMIT := 10, WINDOW := 60000, pfx := "ratelimit:login:ip:" }
        EMAIL := { LIMIT := 5, WINDOW := 60000, pfx := "ratelimit:login:email:" }
        GLOBAL := { LIMIT := 1000, WINDOW := 60000, pfx := "ratelimit:login:global:" } } }

/-- The store-resident state for one key: the wall-clock start of the current
fixed bucket and the event counts of the current and previous buckets
(spec §3, "Window State"). -/
structure WindowState where
  windowStart : Nat
  current : Nat
  previous : Nat
deriving DecidableEq

/-- The remote counter store, as a key-value map modelled by an association
list from keys to window states. -/
abbrev Store := List (String × WindowState)

/-- The empty store. -/
def Store.empty : Store := []

/-- Look one key up. -/
def Store.get : Store → String → Option WindowState
  | [], _ => none
  | (k, v) :: rest, key => if key = k then some v else Store.get rest key

/-- Write one key, replacing any existing binding. -/
def Store.set : Store → String → WindowState → Store
  | [], key, v => [(key, v)]
  | (k, w) :: rest, key, v =>
    if key = k then (key, v) :: rest else (k, w) :: Store.set rest key v

/-- Delete one key (`redis.del`). -/
def Store.del : Store → String → Store
  | [], _ => []
  | (k, w) :: rest, key =>
    if key = k then Store.del rest key else (k, w) :: Store.del rest key

/-- Result of one `Ratelimit.limit` call (`RateLimitResult` in
`src/lib/rate-limit.ts`, without the ignorable `pending` promise). -/
structure RateLimitResult where
  success : Bool
  limit : Nat
  remaining : Nat
  reset : Nat
deriving DecidableEq

/-- Current and previous bucket counts that a key's stored state contributes
at current-bucket boundary `t0`: a state for the current bucket keeps both
counts, a state one window old rotates its current count into the previous
bucket, anything staler contributes nothing. -/
def bucketsAt (st : Option WindowState) (t0 window : Nat) : Nat × Nat :=
  match st with
  | none => (0, 0)
  | some w =>
    if w.windowStart = t0 then (w.current, w.previous)
    else if w.windowStart + window = t0 then (0, w.current)
    else (0, 0)

/-- Modelled from the spec: the sliding-window limiter of the vendor
`@upstash/ratelimit` SDK (`Ratelimit.slidingWindow`), whose source is not in
the repository — only its configuration and call sites are.  Following spec
§4.2: the current-bucket boundary is `t0 = floor(now / window) * window`; the
defining event is first recorded by incrementing the current bucket; the
effective count is `current + previous * (1 - (now - t0) / window)`
(computed here in integers scaled by `window`); the check admits iff the
effective count is at most the limit, the increment staying recorded even on
denial; `reset` is `t0 + window`.  `remaining` is the limit minus the
(ceiled) effective count, floored at zero.  The key is the policy's
namespace string followed by the identifier (spec §3 key template, matching
`resetRateLimit` in `src/lib/rate-limit.ts`). -/
def slidingWindowLimit (c : ScopeConfig) (now : Nat) (key : String) (s : Store) :
    RateLimitResult × Store :=
  let t0 := now / c.WINDOW * c.WINDOW
  let cp := bucketsAt (s.get key) t0 c.WINDOW
  let cur := cp.1 + 1
  let effNum := cur * c.WINDOW + cp.2 * (c.WINDOW - (now - t0))
  ({ success := decide (effNum ≤ c.LIMIT * c.WINDOW)
     limit := c.LIMIT
     remaining := c.LIMIT - min c.LIMIT ((effNum + c.WINDOW - 1) / c.WINDOW)
     reset := t0 + c.WINDOW },
   s.set key { windowStart := t0, current := cur, previous := cp.2 })

/-- The single error condition of the counter store (spec §7). -/
inductive StoreErr where
  | storeUnavailable
deriving DecidableEq

/-- One fallible `limit` call: if the failure oracle `F` marks the key, the
call throws `StoreUnavailable` and the store is untouched; otherwise it
behaves as `slidingWindowLimit`. -/
def limitCall (F : String → Bool) (c : ScopeConfig) (now : Nat) (key : String)
    (s : Store) : Except StoreErr RateLimitResult × Store :=
  if F key then (.error .storeUnavailable, s)
  else
    let rs := slidingWindowLimit c now key s
    (.ok rs.1, rs.2)

/-- The scope that produced a denial (`limitType` in the checkers). -/
inductive LimitType where
  | global
  | ip
  | email
deriving DecidableEq

/-- Verdict of a multi-scope check, mirroring the checkers' return object:
all fields other than `allowed` are optional. -/
structure Verdict where
  allowed : Bool
  limitType : Option LimitType
  limit : Option Nat
  remaining : Option Nat
  resetAt : Option Nat
deriving DecidableEq

/-- The denial verdict built from one scope's result, as in the repeated
object literals of `src/lib/rate-limit.ts`. -/
def denyVerdict (t : LimitType) (r : RateLimitResult) : Verdict :=
  { allowed := false, limitType := some t, limit := some r.limit
    remaining := some r.remaining, resetAt := some r.reset }

/-- The fail-open verdict `{ allowed: true }` of the catch branches. -/
def failOpenVerdict : Verdict :=
  { allowed := true, limitType := none, limit := none
    remaining := none, resetAt := none }

/-- The store key a scope uses for an identifier. -/
def scopeKey (c : ScopeConfig) (id : String) : String := c.pfx ++ id

/-- Character-wise lower-casing: the model of the JS `toLowerCase()` call on
the email identifier (extensionally `String.toLower`, which maps
`Char.toLower` over the characters). -/
def jsToLower (s : String) : String := String.mk (s.data.map Char.toLower)

/-- `checkSignupRateLimit` from `src/lib/rate-limit.ts` (the module imported
by the signup route): the three scopes are awaited in sequence — global,
then IP, then lower-cased email — returning at the first denial; a thrown
`StoreUnavailable` anywhere is caught and resolved to the fail-open verdict.
On full admission only `remaining` (the minimum across scopes) is
populated. -/
def checkSignupRateLimit (F : String → Bool) (now : Nat) (ip email : String)
    (s : Store) : Verdict × Store :=
  match limitCall F RATE_LIMIT_CONFIG.SIGNUP.GLOBAL now
      (scopeKey RATE_LIMIT_CONFIG.SIGNUP.GLOBAL "global") s with
  | (.error _, s1) => (failOpenVerdict, s1)
  | (.ok g, s1) =>
    if g.success = false then (denyVerdict .global g, s1)
    else
      match limitCall F RATE_LIMIT_CONFIG.SIGNUP.IP now
          (scopeKey RATE_LIMIT_CONFIG.SIGNUP.IP ip) s1 with
      | (.error _, s2) => (failOpenVerdict, s2)
      | (.ok i, s2) =>
        if i.success = false then (denyVerdict .ip i, s2)
        else
          match limitCall F RATE_LIMIT_CONFIG.SIGNUP.EMAIL now
              (scopeKey RATE_LIMIT_CONFIG.SIGNUP.EMAIL (jsToLower email)) s2 with
          | (.error _, s3) => (failOpenVerdict, s3)
          | (.ok e, s3) =>
            if e.success = false then (denyVerdict .email e, s3)
            else
              ({ allowed := true, limitType := none, limit := none
                 remaining := some (min g.remaining (min i.remaining e.remaining))
                 resetAt := none }, s3)

/-- `checkLoginRateLimit` from `src/lib/rate-limit.ts`: same sequential
shape over the login policies; on full admission it also reports the email
scope's `limit` and `reset` ("most specific limit" in the source). -/
def checkLoginRateLimit (F : String → Bool) (now : Nat) (ip email : String)
    (s : Store) : Verdict × Store :=
  match limitCall F RATE_LIMIT_CONFIG.LOGIN.GLOBAL now
      (scopeKey RATE_LIMIT_CONFIG.LOGIN.GLOBAL "global") s with
  | (.error _, s1) => (failOpenVerdict, s1)
  | (.ok g, s1) =>
    if g.success = false then (denyVerdict .global g, s1)
    else
      match limitCall F RATE_LIMIT_CONFIG.LOGIN.IP now
          (scopeKey RATE_LIMIT_CONFIG.LOGIN.IP ip) s1 with
      | (.error _, s2) => (failOpenVerdict, s2)
      | (.ok i, s2) =>
        if i.success = false then (denyVerdict .ip i, s2)
        else
          match limitCall F RATE_LIMIT_CONFIG.LOGIN.EMAIL now
              (scopeKey RATE_LIMIT_CONFIG.LOGIN.EMAIL (jsToLower email)) s2 with
          | (.error _, s3) => (failOpenVerdict, s3)
          | (.ok e, s3) =>
            if e.success = false then (denyVerdict .email e, s3)
            else
              ({ allowed := true, limitType := none
                 limit := some e.limit
                 remaining := some (min g.remaining (min i.remaining e.remaining))
                 resetAt := some e.reset }, s3)

/-- `checkSignupRateLimit` of the parallel variant of the module (an unnamed
source file of the repository): all three scope checks are issued via
`Promise.all` — so every increment lands regardless of the outcome — and the
completed results are folded in the fixed priority order global > ip >
email; on full admission `limit` and `resetAt` are taken from the IP scope.
The scopes touch pairwise distinct keys, so threading the store through the
three calls in order is equivalent to any interleaving. -/
def checkSignupRateLimitP (F : String → Bool) (now : Nat) (ip email : String)
    (s : Store) : Verdict × Store :=
  let rg := limitCall F RATE_LIMIT_CONFIG.SIGNUP.GLOBAL now
      (scopeKey RATE_LIMIT_CONFIG.SIGNUP.GLOBAL "global") s
  let ri := limitCall F RATE_LIMIT_CONFIG.SIGNUP.IP now
      (scopeKey RATE_LIMIT_CONFIG.SIGNUP.IP ip) rg.2
  let re := limitCall F RATE_LIMIT_CONFIG.SIGNUP.EMAIL now
      (scopeKey RATE_LIMIT_CONFIG.SIGNUP.EMAIL (jsToLower email)) ri.2
  match rg.1, ri.1, re.1 with
  | .ok g, .ok i, .ok e =>
    if g.success = false then (denyVerdict .global g, re.2)
    else if i.success = false then (denyVerdict .ip i, re.2)
    else if e.success = false then (denyVerdict .email e, re.2)
    else
      ({ allowed := true, limitType := none
         limit := some i.limit
         remaining := some (min g.remaining (min i.remaining e.remaining))
         resetAt := some i.reset }, re.2)
  | _, _, _ => (failOpenVerdict, re.2)

/-- Scope selector of `resetRateLimit`. -/
inductive ResetType where
  | ip
  | email
  | global
deriving DecidableEq

/-- `resetRateLimit` from `src/lib/rate-limit.ts`: deletes the signup key
built from the hard-coded namespace of the chosen scope and the identifier,
verbatim (no normalization of the identifier). -/
def resetRateLimit (t : ResetType) (identifier : String) (s : Store) : Store :=
  let p :=
    match t with
    | .ip => "ratelimit:signup:ip:"
    | .email => "ratelimit:signup:email:"
    | .global => "ratelimit:signup:global:"
  s.del (p ++ identifier)

/-- JS truthiness of `headers.get(...)`: `null` and the empty string are
falsy. -/
def truthy : Option String → Bool
  | none => false
  | some v => !(v = "")

/-- Splitting at commas, the model of the JS `split(",")`: the empty string
yields one empty entry, and consecutive commas yield empty entries. -/
def splitOnCommaChars : List Char → List (List Char)
  | [] => [[]]
  | c :: rest =>
    match splitOnCommaChars rest with
    | [] => [[c]]
    | h :: t => if c = ',' then [] :: h :: t else (c :: h) :: t

/-- Whitespace trimming at both ends, the model of the JS `trim()`. -/
def trimChars (l : List Char) : List Char :=
  ((l.dropWhile Char.isWhitespace).reverse.dropWhile Char.isWhitespace).reverse

/-- `getClientIp` from `src/app/api/auth/signup/route.ts`: the first
comma-separated, trimmed entry of `x-forwarded-for` when that header is
truthy; else `x-real-ip` when truthy; else the placeholder `127.0.0.1`. -/
def getClientIp (forwardedFor realIp : Option String) : String :=
  if truthy forwardedFor then
    String.mk
      (((splitOnCommaChars (forwardedFor.getD "").data).map trimChars).headD [])
  else if truthy realIp then realIp.getD ""
  else "127.0.0.1"

/-- The failure oracle under which no store call throws. -/
def noFailure : String → Bool := fun _ => false

/-- A verdict is an ordinary resolved outcome: either an admission, or a
denial carrying a scope with its limit, remaining and reset data. -/
def resolvedVerdict (v : Verdict) : Prop :=
  v.allowed = true ∨
  (v.allowed = false ∧ v.limitType.isSome = true ∧ v.limit.isSome = true ∧
   v.remaining.isSome = true ∧ v.resetAt.isSome = true)

/-- A store in which the global signup counter of the current minute window
already holds 100 events at time 0. -/
def globalFullStore : Store :=
  [("ratelimit:signup:global:global",
    { windowStart := 0, current := 100, previous := 0 })]

set_option maxRecDepth 8000 in
/-- The store after `n` scenario-A signup checks from the empty store at
time 0 (global, ip and email signup counters of the current buckets). -/
def scenarioAStore (g i e : Nat) : Store :=
  [("ratelimit:signup:global:global", { windowStart := 0, current := g, previous := 0 }),
   ("ratelimit:signup:ip:9.9.9.9", { windowStart := 0, current := i, previous := 0 }),
   ("ratelimit:signup:email:user@example.com", { windowStart := 0, current := e, previous := 0 })]

/-- A store in which the signup email counter of "a@b.c" is exhausted. -/
def emailFullStore : Store :=
  [("ratelimit:signup:email:a@b.c", { windowStart := 0, current := 5, previous := 0 })]

/-- A lookup after a write sees the written value at the written key and the
old store elsewhere. -/
theorem Store.get_set (s : Store) (k : String) (v : WindowState) (k2 : String) :
    (s.set k v).get k2 = if k2 = k then some v else s.get k2 := by
  induction s with
  | nil => simp [Store.set, Store.get]
  | cons a rest ih =>
    obtain ⟨ak, av⟩ := a
    by_cases hk : k = ak
    · subst hk
      by_cases h2 : k2 = k <;> simp [Store.set, Store.get, h2]
    · by_cases h2 : k2 = ak
      · subst h2
        simp [Store.set, Store.get, hk, Ne.symm hk]
      · simp only [Store.set, if_neg hk, Store.get, if_neg h2, ih]

/-- A lookup after a delete sees nothing at the deleted key and the old
store elsewhere. -/
theorem Store.get_del (s : Store) (k : String) (k2 : String) :
    (s.del k).get k2 = if k2 = k then none else s.get k2 := by
  induction s with
  | nil => simp [Store.del, Store.get]
  | cons a rest ih =>
    obtain ⟨ak, av⟩ := a
    by_cases hk : k = ak
    · subst hk
      rw [show Store.del ((k, av) :: rest) k = Store.del rest k by
            simp [Store.del], ih]
      by_cases h2 : k2 = k <;> simp [Store.get, h2]
    · rw [show Store.del ((ak, av) :: rest) k = (ak, av) :: Store.del rest k by
            simp [Store.del, hk]]
      by_cases h2 : k2 = ak
      · subst h2
        simp [Store.get, Ne.symm hk]
      · simp only [Store.get, if_neg h2, ih]

/-- Two string concatenations differ when their left parts differ at a
character position inside both. -/
theorem append_ne_of_mismatch (p q x y : String) (k : Nat)
    (hp : k < p.data.length) (hq : k < q.data.length)
    (h : p.data[k]? ≠ q.data[k]?) : p ++ x ≠ q ++ y := by
  intro he
  apply h
  have hd : (p ++ x).data = (q ++ y).data := congrArg String.data he
  rw [String.data_append, String.data_append] at hd
  have h1 : (p.data ++ x.data)[k]? = p.data[k]? := List.getElem?_append_left hp
  have h2 : (q.data ++ y.data)[k]? = q.data[k]? := List.getElem?_append_left hq
  rw [← h1, ← h2, hd]

/-- The global signup key never collides with an IP-scope signup key. -/
theorem signup_global_key_ne_ip (x : String) :
    scopeKey RATE_LIMIT_CONFIG.SIGNUP.GLOBAL "global" ≠
    scopeKey RATE_LIMIT_CONFIG.SIGNUP.IP x :=
  append_ne_of_mismatch _ _ _ _ 17 (by decide) (by decide) (by decide)

/-- The global signup key never collides with an email-scope signup key. -/
theorem signup_global_key_ne_email (x : String) :
    scopeKey RATE_LIMIT_CONFIG.SIGNUP.GLOBAL "global" ≠
    scopeKey RATE_LIMIT_CONFIG.SIGNUP.EMAIL x :=
  append_ne_of_mismatch _ _ _ _ 17 (by decide) (by decide) (by decide)

/-- An IP-scope signup key never collides with an email-scope signup key. -/
theorem signup_ip_key_ne_email (x y : String) :
    scopeKey RATE_LIMIT_CONFIG.SIGNUP.IP x ≠
    scopeKey RATE_LIMIT_CONFIG.SIGNUP.EMAIL y :=
  append_ne_of_mismatch _ _ _ _ 17 (by decide) (by decide) (by decide)


theorem slidingWindowLimit_fst_congr (c : ScopeConfig) (now : Nat) (k1 k2 : String)
    {s t : Store} (h : s.get k1 = t.get k2) :
    (slidingWindowLimit c now k1 s).1 = (slidingWindowLimit c now k2 t).1 := by
  simp [slidingWindowLimit, h]

theorem slidingWindowLimit_get_ne (c : ScopeConfig) (now : Nat) (key : String)
    (s : Store) (k2 : String) (h : k2 ≠ key) :
    ((slidingWindowLimit c now key s).2).get k2 = s.get k2 := by
  simp [slidingWindowLimit, Store.get_set, h]

theorem checkSignupRateLimit_fst_congr (now : Nat) (ip ip2 email email2 : String)
    (s t : Store)
    (hg : s.get (scopeKey RATE_LIMIT_CONFIG.SIGNUP.GLOBAL "global") =
          t.get (scopeKey RATE_LIMIT_CONFIG.SIGNUP.GLOBAL "global"))
    (hip : s.get (scopeKey RATE_LIMIT_CONFIG.SIGNUP.IP ip) =
           t.get (scopeKey RATE_LIMIT_CONFIG.SIGNUP.IP ip2))
    (hem : s.get (scopeKey RATE_LIMIT_CONFIG.SIGNUP.EMAIL (jsToLower email)) =
           t.get (scopeKey RATE_LIMIT_CONFIG.SIGNUP.EMAIL (jsToLower email2))) :
    (checkSignupRateLimit noFailure now ip email s).1 =
    (checkSignupRateLimit noFailure now ip2 email2 t).1 := by
  have hgf : (slidingWindowLimit RATE_LIMIT_CONFIG.SIGNUP.GLOBAL now
      (scopeKey RATE_LIMIT_CONFIG.SIGNUP.GLOBAL "global") s).1 =
      (slidingWindowLimit RATE_LIMIT_CONFIG.SIGNUP.GLOBAL now
      (scopeKey RATE_LIMIT_CONFIG.SIGNUP.GLOBAL "global") t).1 :=
    slidingWindowLimit_fst_congr _ _ _ _ hg
  have hip1 : ((slidingWindowLimit RATE_LIMIT_CONFIG.SIGNUP.GLOBAL now
      (scopeKey RATE_LIMIT_CONFIG.SIGNUP.GLOBAL "global") s).2).get
        (scopeKey RATE_LIMIT_CONFIG.SIGNUP.IP ip) =
      ((slidingWindowLimit RATE_LIMIT_CONFIG.SIGNUP.GLOBAL now
      (scopeKey RATE_LIMIT_CONFIG.SIGNUP.GLOBAL "global") t).2).get
        (scopeKey RATE_LIMIT_CONFIG.SIGNUP.IP ip2) := by
    rw [slidingWindowLimit_get_ne _ _ _ _ _ (signup_global_key_ne_ip ip).symm,
        slidingWindowLimit_get_ne _ _ _ _ _ (signup_global_key_ne_ip ip2).symm]
    exact hip
  have hif : (slidingWindowLimit RATE_LIMIT_CONFIG.SIGNUP.IP now
      (scopeKey RATE_LIMIT_CONFIG.SIGNUP.IP ip)
      ((slidingWindowLimit RATE_LIMIT_CONFIG.SIGNUP.GLOBAL now
        (scopeKey RATE_LIMIT_CONFIG.SIGNUP.GLOBAL "global") s).2)).1 =
      (slidingWindowLimit RATE_LIMIT_CONFIG.SIGNUP.IP now
      (scopeKey RATE_LIMIT_CONFIG.SIGNUP.IP ip2)
      ((slidingWindowLimit RATE_LIMIT_CONFIG.SIGNUP.GLOBAL now
        (scopeKey RATE_LIMIT_CONFIG.SIGNUP.GLOBAL "global") t).2)).1 :=
    slidingWindowLimit_fst_congr _ _ _ _ hip1
  have hem2 : ((slidingWindowLimit RATE_LIMIT_CONFIG.SIGNUP.IP now
      (scopeKey RATE_LIMIT_CONFIG.SIGNUP.IP ip)
      ((slidingWindowLimit RATE_LIMIT_CONFIG.SIGNUP.GLOBAL now
        (scopeKey RATE_LIMIT_CONFIG.SIGNUP.GLOBAL "global") s).2)).2).get
        (scopeKey RATE_LIMIT_CONFIG.SIGNUP.EMAIL (jsToLower email)) =
      ((slidingWindowLimit RATE_LIMIT_CONFIG.SIGNUP.IP now
      (scopeKey RATE_LIMIT_CONFIG.SIGNUP.IP ip2)
      ((slidingWindowLimit RATE_LIMIT_CONFIG.SIGNUP.GLOBAL now
        (scopeKey RATE_LIMIT_CONFIG.SIGNUP.GLOBAL "global") t).2)).2).get
        (scopeKey RATE_LIMIT_CONFIG.SIGNUP.EMAIL (jsToLower email2)) := by
    rw [slidingWindowLimit_get_ne _ _ _ _ _
          (signup_ip_key_ne_email ip (jsToLower email)).symm,
        slidingWindowLimit_get_ne _ _ _ _ _
          (signup_ip_key_ne_email ip2 (jsToLower email2)).symm,
        slidingWindowLimit_get_ne _ _ _ _ _
          (signup_global_key_ne_email (jsToLower email)).symm,
        slidingWindowLimit_get_ne _ _ _ _ _
          (signup_global_key_ne_email (jsToLower email2)).symm]
    exact hem
  have hef : (slidingWindowLimit RATE_LIMIT_CONFIG.SIGNUP.EMAIL now
      (scopeKey RATE_LIMIT_CONFIG.SIGNUP.EMAIL (jsToLower email))
      ((slidingWindowLimit RATE_LIMIT_CONFIG.SIGNUP.IP now
        (scopeKey RATE_LIMIT_CONFIG.SIGNUP.IP ip)
        ((slidingWindowLimit RATE_LIMIT_CONFIG.SIGNUP.GLOBAL now
          (scopeKey RATE_LIMIT_CONFIG.SIGNUP.GLOBAL "global") s).2)).2)).1 =
      (slidingWindowLimit RATE_LIMIT_CONFIG.SIGNUP.EMAIL now
      (scopeKey RATE_LIMIT_CONFIG.SIGNUP.EMAIL (jsToLower email2))
      ((slidingWindowLimit RATE_LIMIT_CONFIG.SIGNUP.IP now
        (scopeKey RATE_LIMIT_CONFIG.SIGNUP.IP ip2)
        ((slidingWindowLimit RATE_LIMIT_CONFIG.SIGNUP.GLOBAL now
          (scopeKey RATE_LIMIT_CONFIG.SIGNUP.GLOBAL "global") t).2)).2)).1 :=
    slidingWindowLimit_fst_congr _ _ _ _ hem2
  by_cases h1 : (slidingWindowLimit RATE_LIMIT_CONFIG.SIGNUP.GLOBAL now
      (scopeKey RATE_LIMIT_CONFIG.SIGNUP.GLOBAL "global") t).1.success = false
  · simp [checkSignupRateLimit, limitCall, noFailure, hgf, h1]
  · by_cases h2 : (slidingWindowLimit RATE_LIMIT_CONFIG.SIGNUP.IP now
        (scopeKey RATE_LIMIT_CONFIG.SIGNUP.IP ip2)
        ((slidingWindowLimit RATE_LIMIT_CONFIG.SIGNUP.GLOBAL now
          (scopeKey RATE_LIMIT_CONFIG.SIGNUP.GLOBAL "global") t).2)).1.success = false
    · simp [checkSignupRateLimit, limitCall, noFailure, hgf, hif, h1, h2]
    · by_cases h3 : (slidingWindowLimit RATE_LIMIT_CONFIG.SIGNUP.EMAIL now
          (scopeKey RATE_LIMIT_CONFIG.SIGNUP.EMAIL (jsToLower email2))
          ((slidingWindowLimit RATE_LIMIT_CONFIG.SIGNUP.IP now
            (scopeKey RATE_LIMIT_CONFIG.SIGNUP.IP ip2)
            ((slidingWindowLimit RATE_LIMIT_CONFIG.SIGNUP.GLOBAL now
              (scopeKey RATE_LIMIT_CONFIG.SIGNUP.GLOBAL "global") t).2)).2)).1.success = false
      · simp [checkSignupRateLimit, limitCall, noFailure, hgf, hif, hef, h1, h2, h3]
      · simp [checkSignupRateLimit, limitCall, noFailure, hgf, hif, hef, h1, h2, h3]

/-- C1: for every pair of identifiers, if an individual scope check that the
run reaches raises `StoreUnavailable`, `checkSignupRateLimit` and
`checkLoginRateLimit` return the fail-open verdict — `allowed = true` with
no `limitType`, `limit`, `remaining` or `resetAt` — and never propagate the
error. -/
theorem c1_store_error_fails_open (F : String → Bool) (now : Nat)
    (ip email : String) (s : Store) :
    (F (scopeKey RATE_LIMIT_CONFIG.SIGNUP.GLOBAL "global") = true →
      (checkSignupRateLimit F now ip email s).1 = failOpenVerdict)
  ∧ (F (scopeKey RATE_LIMIT_CONFIG.SIGNUP.GLOBAL "global") = false →
     (slidingWindowLimit RATE_LIMIT_CONFIG.SIGNUP.GLOBAL now
        (scopeKey RATE_LIMIT_CONFIG.SIGNUP.GLOBAL "global") s).1.success = true →
     F (scopeKey RATE_LIMIT_CONFIG.SIGNUP.IP ip) = true →
      (checkSignupRateLimit F now ip email s).1 = failOpenVerdict)
  ∧ (F (scopeKey RATE_LIMIT_CONFIG.SIGNUP.GLOBAL "global") = false →
     (slidingWindowLimit RATE_LIMIT_CONFIG.SIGNUP.GLOBAL now
        (scopeKey RATE_LIMIT_CONFIG.SIGNUP.GLOBAL "global") s).1.success = true →
     F (scopeKey RATE_LIMIT_CONFIG.SIGNUP.IP ip) = false →
     (slidingWindowLimit RATE_LIMIT_CONFIG.SIGNUP.IP now
        (scopeKey RATE_LIMIT_CONFIG.SIGNUP.IP ip)
        ((slidingWindowLimit RATE_LIMIT_CONFIG.SIGNUP.GLOBAL now
          (scopeKey RATE_LIMIT_CONFIG.SIGNUP.GLOBAL "global") s).2)).1.success = true →
     F (scopeKey RATE_LIMIT_CONFIG.SIGNUP.EMAIL (jsToLower email)) = true →
      (checkSignupRateLimit F now ip email s).1 = failOpenVerdict)
  ∧ (F (scopeKey RATE_LIMIT_CONFIG.LOGIN.GLOBAL "global") = true →
      (checkLoginRateLimit F now ip email s).1 = failOpenVerdict)
  ∧ (F (scopeKey RATE_LIMIT_CONFIG.LOGIN.GLOBAL "global") = false →
     (slidingWindowLimit RATE_LIMIT_CONFIG.LOGIN.GLOBAL now
        (scopeKey RATE_LIMIT_CONFIG.LOGIN.GLOBAL "global") s).1.success = true →
     F (scopeKey RATE_LIMIT_CONFIG.LOGIN.IP ip) = true →
      (checkLoginRateLimit F now ip email s).1 = failOpenVerdict)
  ∧ (F (scopeKey RATE_LIMIT_CONFIG.LOGIN.GLOBAL "global") = false →
     (slidingWindowLimit RATE_LIMIT_CONFIG.LOGIN.GLOBAL now
        (scopeKey RATE_LIMIT_CONFIG.LOGIN.GLOBAL "global") s).1.success = true →
     F (scopeKey RATE_LIMIT_CONFIG.LOGIN.IP ip) = false →
     (slidingWindowLimit RATE_LIMIT_CONFIG.LOGIN.IP now
        (scopeKey RATE_LIMIT_CONFIG.LOGIN.IP ip)
        ((slidingWindowLimit RATE_LIMIT_CONFIG.LOGIN.GLOBAL now
          (scopeKey RATE_LIMIT_CONFIG.LOGIN.GLOBAL "global") s).2)).1.success = true →
     F (scopeKey RATE_LIMIT_CONFIG.LOGIN.EMAIL (jsToLower email)) = true →
      (checkLoginRateLimit F now ip email s).1 = failOpenVerdict) := by
  refine ⟨?_, ?_, ?_, ?_, ?_, ?_⟩
  · intro h1
    simp [checkSignupRateLimit, limitCall, h1]
  · intro h1 h2 h3
    simp [checkSignupRateLimit, limitCall, h1, h2, h3]
  · intro h1 h2 h3 h4 h5
    simp [checkSignupRateLimit, limitCall, h1, h2, h3, h4, h5]
  · intro h1
    simp [checkLoginRateLimit, limitCall, h1]
  · intro h1 h2 h3
    simp [checkLoginRateLimit, limitCall, h1, h2, h3]
  · intro h1 h2 h3 h4 h5
    simp [checkLoginRateLimit, limitCall, h1, h2, h3, h4, h5]

/-- Witness for C1: with the store erroring on every call, both checks
fail open on a concrete input. -/
theorem c1_store_error_fails_open_witness :
    (checkSignupRateLimit (fun _ => true) 0 "1.2.3.4" "a@b.c" Store.empty).1 =
      failOpenVerdict ∧
    (checkLoginRateLimit (fun _ => true) 0 "1.2.3.4" "a@b.c" Store.empty).1 =
      failOpenVerdict :=
  ⟨(c1_store_error_fails_open (fun _ => true) 0 "1.2.3.4" "a@b.c" Store.empty).1 rfl,
   (c1_store_error_fails_open (fun _ => true) 0 "1.2.3.4" "a@b.c" Store.empty).2.2.2.1 rfl⟩

/-- C10: the checkers are total at their public interface: for every failure
oracle, every time, every strings `ip` and `email` (the empty string
included — no identifier validation happens) and every store, both checkers
return an ordinary verdict, never an error; in particular, with the store
erroring on every call the result is the fail-open admission. -/
theorem c10_checkers_total (F : String → Bool) (now : Nat) (ip email : String)
    (s : Store) :
    (resolvedVerdict (checkSignupRateLimit F now ip email s).1 ∧
     resolvedVerdict (checkLoginRateLimit F now ip email s).1) ∧
    ((checkSignupRateLimit (fun _ => true) 0 "" "" Store.empty).1 =
       failOpenVerdict ∧
     (checkLoginRateLimit (fun _ => true) 0 "" "" Store.empty).1 =
       failOpenVerdict) := by
  constructor
  · constructor
    · unfold checkSignupRateLimit limitCall
      repeat' split
      all_goals simp [resolvedVerdict, failOpenVerdict, denyVerdict]
    · unfold checkLoginRateLimit limitCall
      repeat' split
      all_goals simp [resolvedVerdict, failOpenVerdict, denyVerdict]
  · exact ⟨rfl, rfl⟩

/-- C2: whenever the global scope denies, the verdict of
`checkSignupRateLimit` / `checkLoginRateLimit` reports `limitType` global
with the global scope's limit, remaining and reset, regardless of the other
scopes; and in the parallel variant, where all three scope results are
available, the reported scope is the first denying one in the fixed priority
order global > ip > email. -/
theorem c2_priority_global_first (now : Nat) (ip email : String) (s : Store) :
    (∀ g sg, slidingWindowLimit RATE_LIMIT_CONFIG.SIGNUP.GLOBAL now
        (scopeKey RATE_LIMIT_CONFIG.SIGNUP.GLOBAL "global") s = (g, sg) →
      g.success = false →
      checkSignupRateLimit noFailure now ip email s = (denyVerdict .global g, sg))
  ∧ (∀ g sg, slidingWindowLimit RATE_LIMIT_CONFIG.LOGIN.GLOBAL now
        (scopeKey RATE_LIMIT_CONFIG.LOGIN.GLOBAL "global") s = (g, sg) →
      g.success = false →
      checkLoginRateLimit noFailure now ip email s = (denyVerdict .global g, sg))
  ∧ (∀ g sg i si e se,
      slidingWindowLimit RATE_LIMIT_CONFIG.SIGNUP.GLOBAL now
        (scopeKey RATE_LIMIT_CONFIG.SIGNUP.GLOBAL "global") s = (g, sg) →
      slidingWindowLimit RATE_LIMIT_CONFIG.SIGNUP.IP now
        (scopeKey RATE_LIMIT_CONFIG.SIGNUP.IP ip) sg = (i, si) →
      slidingWindowLimit RATE_LIMIT_CONFIG.SIGNUP.EMAIL now
        (scopeKey RATE_LIMIT_CONFIG.SIGNUP.EMAIL (jsToLower email)) si = (e, se) →
      (g.success = false →
        (checkSignupRateLimitP noFailure now ip email s).1 = denyVerdict .global g)
      ∧ (g.success = true → i.success = false →
        (checkSignupRateLimitP noFailure now ip email s).1 = denyVerdict .ip i)
      ∧ (g.success = true → i.success = true → e.success = false →
        (checkSignupRateLimitP noFailure now ip email s).1 = denyVerdict .email e)) := by
  refine ⟨?_, ?_, ?_⟩
  · intro g sg hg hfail
    simp [checkSignupRateLimit, limitCall, noFailure, hg, hfail]
  · intro g sg hg hfail
    simp [checkLoginRateLimit, limitCall, noFailure, hg, hfail]
  · intro g sg i si e se hg hi he
    refine ⟨?_, ?_, ?_⟩
    · intro hgf
      simp [checkSignupRateLimitP, limitCall, noFailure, hg, hi, he, hgf]
    · intro hgt hif
      simp [checkSignupRateLimitP, limitCall, noFailure, hg, hi, he, hgt, hif]
    · intro hgt hit hef
      simp [checkSignupRateLimitP, limitCall, noFailure, hg, hi, he, hgt, hit, hef]

/-- Witness for C2: on a store whose global scope is exhausted, the signup
check reports the global denial with the global numbers. -/
theorem c2_priority_global_first_witness :
    checkSignupRateLimit noFailure 0 "1.2.3.4" "a@b.c" globalFullStore =
      (denyVerdict .global
        { success := false, limit := 100, remaining := 0, reset := 60000 },
       [("ratelimit:signup:global:global",
         { windowStart := 0, current := 101, previous := 0 })]) :=
  (c2_priority_global_first 0 "1.2.3.4" "a@b.c" globalFullStore).1
    { success := false, limit := 100, remaining := 0, reset := 60000 }
    [("ratelimit:signup:global:global",
      { windowStart := 0, current := 101, previous := 0 })]
    (by decide) rfl

set_option maxRecDepth 8000 in
/-- C3 as stated is false on `checkSignupRateLimit` of `src/lib/rate-limit.ts`:
on a store whose global scope is exhausted, the check is denied by the
global scope, yet afterwards the ip and email keys are still absent — the
lower-priority counters were not incremented. -/
theorem c3_counterexample :
    (checkSignupRateLimit noFailure 0 "1.2.3.4" "a@b.c" globalFullStore).1.limitType
      = some .global ∧
    ((checkSignupRateLimit noFailure 0 "1.2.3.4" "a@b.c" globalFullStore).2).get
        "ratelimit:signup:ip:1.2.3.4" = none ∧
    ((checkSignupRateLimit noFailure 0 "1.2.3.4" "a@b.c" globalFullStore).2).get
        "ratelimit:signup:email:a@b.c" = none ∧
    globalFullStore.get "ratelimit:signup:ip:1.2.3.4" = none ∧
    globalFullStore.get "ratelimit:signup:email:a@b.c" = none := by
  decide

/-- C3 amended: when the sequential `checkSignupRateLimit` is denied by the
global scope, the ip-scope and email-scope counters are left untouched —
only scopes up to and including the denying one spend quota. -/
theorem c3_denied_by_global_skips_lower_scopes (now : Nat) (ip email : String)
    (s : Store)
    (h : (slidingWindowLimit RATE_LIMIT_CONFIG.SIGNUP.GLOBAL now
        (scopeKey RATE_LIMIT_CONFIG.SIGNUP.GLOBAL "global") s).1.success = false) :
    (checkSignupRateLimit noFailure now ip email s).1.limitType = some .global ∧
    ((checkSignupRateLimit noFailure now ip email s).2).get
        (scopeKey RATE_LIMIT_CONFIG.SIGNUP.IP ip) =
      s.get (scopeKey RATE_LIMIT_CONFIG.SIGNUP.IP ip) ∧
    ((checkSignupRateLimit noFailure now ip email s).2).get
        (scopeKey RATE_LIMIT_CONFIG.SIGNUP.EMAIL (jsToLower email)) =
      s.get (scopeKey RATE_LIMIT_CONFIG.SIGNUP.EMAIL (jsToLower email)) := by
  refine ⟨?_, ?_, ?_⟩
  · simp [checkSignupRateLimit, limitCall, noFailure, h, denyVerdict]
  · simp only [checkSignupRateLimit, limitCall, noFailure]
    simp [h, slidingWindowLimit_get_ne _ _ _ _ _ (signup_global_key_ne_ip ip).symm]
  · simp only [checkSignupRateLimit, limitCall, noFailure]
    simp [h, slidingWindowLimit_get_ne _ _ _ _ _
      (signup_global_key_ne_email (jsToLower email)).symm]

set_option maxRecDepth 8000 in
/-- Witness for the amended C3, at the concrete exhausted-global store. -/
theorem c3_denied_by_global_skips_lower_scopes_witness :
    (checkSignupRateLimit noFailure 0 "1.2.3.4" "a@b.c" globalFullStore).1.limitType
      = some .global ∧
    ((checkSignupRateLimit noFailure 0 "1.2.3.4" "a@b.c" globalFullStore).2).get
        (scopeKey RATE_LIMIT_CONFIG.SIGNUP.IP "1.2.3.4") =
      globalFullStore.get (scopeKey RATE_LIMIT_CONFIG.SIGNUP.IP "1.2.3.4") ∧
    ((checkSignupRateLimit noFailure 0 "1.2.3.4" "a@b.c" globalFullStore).2).get
        (scopeKey RATE_LIMIT_CONFIG.SIGNUP.EMAIL (jsToLower "a@b.c")) =
      globalFullStore.get (scopeKey RATE_LIMIT_CONFIG.SIGNUP.EMAIL (jsToLower "a@b.c")) :=
  c3_denied_by_global_skips_lower_scopes 0 "1.2.3.4" "a@b.c" globalFullStore
    (by decide)

/-- C4: whenever all three scopes admit, the `remaining` reported by
`checkSignupRateLimit` / `checkLoginRateLimit` is the minimum of the
remaining values of the global, ip and email scope evaluations. -/
theorem c4_remaining_is_min (now : Nat) (ip email : String) (s : Store) :
    (∀ g sg i si e se,
      slidingWindowLimit RATE_LIMIT_CONFIG.SIGNUP.GLOBAL now
        (scopeKey RATE_LIMIT_CONFIG.SIGNUP.GLOBAL "global") s = (g, sg) →
      slidingWindowLimit RATE_LIMIT_CONFIG.SIGNUP.IP now
        (scopeKey RATE_LIMIT_CONFIG.SIGNUP.IP ip) sg = (i, si) →
      slidingWindowLimit RATE_LIMIT_CONFIG.SIGNUP.EMAIL now
        (scopeKey RATE_LIMIT_CONFIG.SIGNUP.EMAIL (jsToLower email)) si = (e, se) →
      g.success = true → i.success = true → e.success = true →
      (checkSignupRateLimit noFailure now ip email s).1.remaining =
        some (min g.remaining (min i.remaining e.remaining)))
  ∧ (∀ g sg i si e se,
      slidingWindowLimit RATE_LIMIT_CONFIG.LOGIN.GLOBAL now
        (scopeKey RATE_LIMIT_CONFIG.LOGIN.GLOBAL "global") s = (g, sg) →
      slidingWindowLimit RATE_LIMIT_CONFIG.LOGIN.IP now
        (scopeKey RATE_LIMIT_CONFIG.LOGIN.IP ip) sg = (i, si) →
      slidingWindowLimit RATE_LIMIT_CONFIG.LOGIN.EMAIL now
        (scopeKey RATE_LIMIT_CONFIG.LOGIN.EMAIL (jsToLower email)) si = (e, se) →
      g.success = true → i.success = true → e.success = true →
      (checkLoginRateLimit noFailure now ip email s).1.remaining =
        some (min g.remaining (min i.remaining e.remaining))) := by
  constructor
  · intro g sg i si e se hg hi he hgt hit het
    simp [checkSignupRateLimit, limitCall, noFailure, hg, hi, he, hgt, hit, het]
  · intro g sg i si e se hg hi he hgt hit het
    simp [checkLoginRateLimit, limitCall, noFailure, hg, hi, he, hgt, hit, het]

set_option maxRecDepth 8000 in
/-- Witness for C4: on the empty store both checks admit and report the
minimum remaining across the three scopes. -/
theorem c4_remaining_is_min_witness :
    (checkSignupRateLimit noFailure 0 "1.2.3.4" "a@b.c" Store.empty).1.remaining =
      some (min 99 (min 2 4)) ∧
    (checkLoginRateLimit noFailure 0 "1.2.3.4" "a@b.c" Store.empty).1.remaining =
      some (min 999 (min 9 4)) := by
  constructor
  · exact (c4_remaining_is_min 0 "1.2.3.4" "a@b.c" Store.empty).1
      { success := true, limit := 100, remaining := 99, reset := 60000 }
      [("ratelimit:signup:global:global", { windowStart := 0, current := 1, previous := 0 })]
      { success := true, limit := 3, remaining := 2, reset := 900000 }
      [("ratelimit:signup:global:global", { windowStart := 0, current := 1, previous := 0 }),
       ("ratelimit:signup:ip:1.2.3.4", { windowStart := 0, current := 1, previous := 0 })]
      { success := true, limit := 5, remaining := 4, reset := 3600000 }
      [("ratelimit:signup:global:global", { windowStart := 0, current := 1, previous := 0 }),
       ("ratelimit:signup:ip:1.2.3.4", { windowStart := 0, current := 1, previous := 0 }),
       ("ratelimit:signup:email:a@b.c", { windowStart := 0, current := 1, previous := 0 })]
      (by decide) (by decide) (by decide) rfl rfl rfl
  · exact (c4_remaining_is_min 0 "1.2.3.4" "a@b.c" Store.empty).2
      { success := true, limit := 1000, remaining := 999, reset := 60000 }
      [("ratelimit:login:global:global", { windowStart := 0, current := 1, previous := 0 })]
      { success := true, limit := 10, remaining := 9, reset := 60000 }
      [("ratelimit:login:global:global", { windowStart := 0, current := 1, previous := 0 }),
       ("ratelimit:login:ip:1.2.3.4", { windowStart := 0, current := 1, previous := 0 })]
      { success := true, limit := 5, remaining := 4, reset := 60000 }
      [("ratelimit:login:global:global", { windowStart := 0, current := 1, previous := 0 }),
       ("ratelimit:login:ip:1.2.3.4", { windowStart := 0, current := 1, previous := 0 }),
       ("ratelimit:login:email:a@b.c", { windowStart := 0, current := 1, previous := 0 })]
      (by decide) (by decide) (by decide) rfl rfl rfl

set_option maxRecDepth 8000 in
/-- C5 as stated is false on `src/lib/rate-limit.ts`: on the empty store all
scopes admit, yet `checkSignupRateLimit` populates neither `limit` nor
`resetAt`, and `checkLoginRateLimit` reports the email scope's limit (5) and
reset rather than the ip scope's (limit 10). -/
theorem c5_counterexample :
    (checkSignupRateLimit noFailure 0 "1.2.3.4" "a@b.c" Store.empty).1.allowed
      = true ∧
    (checkSignupRateLimit noFailure 0 "1.2.3.4" "a@b.c" Store.empty).1.limit
      = none ∧
    (checkSignupRateLimit noFailure 0 "1.2.3.4" "a@b.c" Store.empty).1.resetAt
      = none ∧
    (slidingWindowLimit RATE_LIMIT_CONFIG.SIGNUP.IP 0
        (scopeKey RATE_LIMIT_CONFIG.SIGNUP.IP "1.2.3.4")
        (checkSignupRateLimit noFailure 0 "1.2.3.4" "a@b.c" Store.empty).2).1.limit
      = 3 ∧
    (checkLoginRateLimit noFailure 0 "1.2.3.4" "a@b.c" Store.empty).1.allowed
      = true ∧
    (checkLoginRateLimit noFailure 0 "1.2.3.4" "a@b.c" Store.empty).1.limit
      = some 5 ∧
    (checkLoginRateLimit noFailure 0 "1.2.3.4" "a@b.c" Store.empty).1.resetAt
      = some 60000 ∧
    RATE_LIMIT_CONFIG.LOGIN.IP.LIMIT = 10 ∧
    (5 : Nat) ≠ 10 := by
  decide

/-- C5 amended: when all scopes admit, `checkSignupRateLimit` populates only
`remaining` (no `limit`, no `resetAt`); `checkLoginRateLimit` takes `limit`
and `resetAt` from the email scope; only the parallel variant of the module
takes them from the ip scope. -/
theorem c5_admit_metadata_sources (now : Nat) (ip email : String) (s : Store) :
    (∀ g sg i si e se,
      slidingWindowLimit RATE_LIMIT_CONFIG.SIGNUP.GLOBAL now
        (scopeKey RATE_LIMIT_CONFIG.SIGNUP.GLOBAL "global") s = (g, sg) →
      slidingWindowLimit RATE_LIMIT_CONFIG.SIGNUP.IP now
        (scopeKey RATE_LIMIT_CONFIG.SIGNUP.IP ip) sg = (i, si) →
      slidingWindowLimit RATE_LIMIT_CONFIG.SIGNUP.EMAIL now
        (scopeKey RATE_LIMIT_CONFIG.SIGNUP.EMAIL (jsToLower email)) si = (e, se) →
      g.success = true → i.success = true → e.success = true →
      (checkSignupRateLimit noFailure now ip email s).1 =
        { allowed := true, limitType := none, limit := none
          remaining := some (min g.remaining (min i.remaining e.remaining))
          resetAt := none })
  ∧ (∀ g sg i si e se,
      slidingWindowLimit RATE_LIMIT_CONFIG.LOGIN.GLOBAL now
        (scopeKey RATE_LIMIT_CONFIG.LOGIN.GLOBAL "global") s = (g, sg) →
      slidingWindowLimit RATE_LIMIT_CONFIG.LOGIN.IP now
        (scopeKey RATE_LIMIT_CONFIG.LOGIN.IP ip) sg = (i, si) →
      slidingWindowLimit RATE_LIMIT_CONFIG.LOGIN.EMAIL now
        (scopeKey RATE_LIMIT_CONFIG.LOGIN.EMAIL (jsToLower email)) si = (e, se) →
      g.success = true → i.success = true → e.success = true →
      (checkLoginRateLimit noFailure now ip email s).1 =
        { allowed := true, limitType := none, limit := some e.limit
          remaining := some (min g.remaining (min i.remaining e.remaining))
          resetAt := some e.reset })
  ∧ (∀ g sg i si e se,
      slidingWindowLimit RATE_LIMIT_CONFIG.SIGNUP.GLOBAL now
        (scopeKey RATE_LIMIT_CONFIG.SIGNUP.GLOBAL "global") s = (g, sg) →
      slidingWindowLimit RATE_LIMIT_CONFIG.SIGNUP.IP now
        (scopeKey RATE_LIMIT_CONFIG.SIGNUP.IP ip) sg = (i, si) →
      slidingWindowLimit RATE_LIMIT_CONFIG.SIGNUP.EMAIL now
        (scopeKey RATE_LIMIT_CONFIG.SIGNUP.EMAIL (jsToLower email)) si = (e, se) →
      g.success = true → i.success = true → e.success = true →
      (checkSignupRateLimitP noFailure now ip email s).1 =
        { allowed := true, limitType := none, limit := some i.limit
          remaining := some (min g.remaining (min i.remaining e.remaining))
          resetAt := some i.reset }) := by
  refine ⟨?_, ?_, ?_⟩
  · intro g sg i si e se hg hi he hgt hit het
    simp [checkSignupRateLimit, limitCall, noFailure, hg, hi, he, hgt, hit, het]
  · intro g sg i si e se hg hi he hgt hit het
    simp [checkLoginRateLimit, limitCall, noFailure, hg, hi, he, hgt, hit, het]
  · intro g sg i si e se hg hi he hgt hit het
    simp [checkSignupRateLimitP, limitCall, noFailure, hg, hi, he, hgt, hit, het]

set_option maxRecDepth 8000 in
/-- Witness for the amended C5, on the empty store at time 0. -/
theorem c5_admit_metadata_sources_witness :
    (checkSignupRateLimit noFailure 0 "1.2.3.4" "a@b.c" Store.empty).1 =
      { allowed := true, limitType := none, limit := none
        remaining := some (min 99 (min 2 4)), resetAt := none } :=
  (c5_admit_metadata_sources 0 "1.2.3.4" "a@b.c" Store.empty).1
    { success := true, limit := 100, remaining := 99, reset := 60000 }
    [("ratelimit:signup:global:global", { windowStart := 0, current := 1, previous := 0 })]
    { success := true, limit := 3, remaining := 2, reset := 900000 }
    [("ratelimit:signup:global:global", { windowStart := 0, current := 1, previous := 0 }),
     ("ratelimit:signup:ip:1.2.3.4", { windowStart := 0, current := 1, previous := 0 })]
    { success := true, limit := 5, remaining := 4, reset := 3600000 }
    [("ratelimit:signup:global:global", { windowStart := 0, current := 1, previous := 0 }),
     ("ratelimit:signup:ip:1.2.3.4", { windowStart := 0, current := 1, previous := 0 }),
     ("ratelimit:signup:email:a@b.c", { windowStart := 0, current := 1, previous := 0 })]
    (by decide) (by decide) (by decide) rfl rfl rfl

/-- C6: one sliding-window evaluation at time `now` with current-window
boundary `t0 = floor(now / W) * W` first records the event by incrementing
the current bucket (also when it denies), admits exactly when
`currentCount + previousCount * (1 - (now - t0) / W) ≤ L` with the defining
increment included in `currentCount`, and returns `t0 + W` as the reset
time. -/
theorem c6_sliding_window_spec (c : ScopeConfig) (now : Nat) (key : String)
    (s : Store) (hW : 0 < c.WINDOW) :
    ((slidingWindowLimit c now key s).2).get key =
      some { windowStart := now / c.WINDOW * c.WINDOW
             current :=
               (bucketsAt (s.get key) (now / c.WINDOW * c.WINDOW) c.WINDOW).1 + 1
             previous :=
               (bucketsAt (s.get key) (now / c.WINDOW * c.WINDOW) c.WINDOW).2 } ∧
    ((slidingWindowLimit c now key s).1.success = true ↔
      (((bucketsAt (s.get key) (now / c.WINDOW * c.WINDOW) c.WINDOW).1 + 1 : ℚ) +
        ((bucketsAt (s.get key) (now / c.WINDOW * c.WINDOW) c.WINDOW).2 : ℚ) *
          (1 - ((now - now / c.WINDOW * c.WINDOW : ℕ) : ℚ) / (c.WINDOW : ℚ)) ≤
        (c.LIMIT : ℚ))) ∧
    (slidingWindowLimit c now key s).1.reset =
      now / c.WINDOW * c.WINDOW + c.WINDOW := by
  have he : now - now / c.WINDOW * c.WINDOW ≤ c.WINDOW := by
    have hdm := Nat.div_add_mod now c.WINDOW
    have hlt : now % c.WINDOW < c.WINDOW := Nat.mod_lt now hW
    rw [Nat.mul_comm (c.WINDOW) (now / c.WINDOW)] at hdm
    omega
  have hWQ : (0 : ℚ) < (c.WINDOW : ℚ) := by exact_mod_cast hW
  refine ⟨?_, ?_, ?_⟩
  · simp [slidingWindowLimit, Store.get_set]
  · simp only [slidingWindowLimit, decide_eq_true_eq]
    rw [← Nat.cast_le (α := ℚ)]
    push_cast [Nat.cast_sub he]
    have key_iff : ∀ x y : ℚ,
        (x * (c.WINDOW : ℚ) + y * ((c.WINDOW : ℚ) - ((now - now / c.WINDOW * c.WINDOW : ℕ) : ℚ)) ≤
          (c.LIMIT : ℚ) * (c.WINDOW : ℚ) ↔
         x + y * (1 - ((now - now / c.WINDOW * c.WINDOW : ℕ) : ℚ) / (c.WINDOW : ℚ)) ≤
          (c.LIMIT : ℚ)) := by
      intro x y
      rw [show x + y * (1 - ((now - now / c.WINDOW * c.WINDOW : ℕ) : ℚ) / (c.WINDOW : ℚ)) =
            (x * (c.WINDOW : ℚ) +
             y * ((c.WINDOW : ℚ) - ((now - now / c.WINDOW * c.WINDOW : ℕ) : ℚ))) / (c.WINDOW : ℚ) by
          field_simp]
      rw [div_le_iff₀ hWQ]
    exact key_iff _ _
  · simp [slidingWindowLimit]

set_option maxRecDepth 8000 in
/-- Witness for C6 at a concrete store: previous-bucket weighting on the
signup ip policy, half-way into the window. -/
theorem c6_sliding_window_spec_witness :
    (0 : Nat) < RATE_LIMIT_CONFIG.SIGNUP.IP.WINDOW ∧
    ((slidingWindowLimit RATE_LIMIT_CONFIG.SIGNUP.IP 1350000 "k"
        [("k", { windowStart := 0, current := 2, previous := 0 })]).2).get "k" =
      some { windowStart := 900000, current := 1, previous := 2 } ∧
    ((slidingWindowLimit RATE_LIMIT_CONFIG.SIGNUP.IP 1350000 "k"
        [("k", { windowStart := 0, current := 2, previous := 0 })]).1.success = true ↔
      ((1 : ℚ) + (2 : ℚ) * (1 - ((450000 : ℕ) : ℚ) / (900000 : ℚ)) ≤ (3 : ℚ))) := by
  have h := c6_sliding_window_spec RATE_LIMIT_CONFIG.SIGNUP.IP 1350000 "k"
    [("k", { windowStart := 0, current := 2, previous := 0 })] (by decide)
  refine ⟨by decide, ?_, ?_⟩
  · simpa [RATE_LIMIT_CONFIG, Store.get, bucketsAt] using h.1
  · simpa [RATE_LIMIT_CONFIG, Store.get, bucketsAt] using h.2.1

set_option maxRecDepth 8000 in
theorem scenarioA_step1 :
    checkSignupRateLimit noFailure 0 "9.9.9.9" "user@example.com" Store.empty =
      ({ allowed := true, limitType := none, limit := none,
         remaining := some 2, resetAt := none }, scenarioAStore 1 1 1) := by
  decide

set_option maxRecDepth 8000 in
theorem scenarioA_step2 :
    checkSignupRateLimit noFailure 0 "9.9.9.9" "user@example.com" (scenarioAStore 1 1 1) =
      ({ allowed := true, limitType := none, limit := none,
         remaining := some 1, resetAt := none }, scenarioAStore 2 2 2) := by
  decide

set_option maxRecDepth 8000 in
theorem scenarioA_step3 :
    checkSignupRateLimit noFailure 0 "9.9.9.9" "user@example.com" (scenarioAStore 2 2 2) =
      ({ allowed := true, limitType := none, limit := none,
         remaining := some 0, resetAt := none }, scenarioAStore 3 3 3) := by
  decide

set_option maxRecDepth 8000 in
theorem scenarioA_step4 :
    checkSignupRateLimit noFailure 0 "9.9.9.9" "user@example.com" (scenarioAStore 3 3 3) =
      ({ allowed := false, limitType := some .ip, limit := some 3,
         remaining := some 0, resetAt := some 900000 }, scenarioAStore 4 4 3) := by
  decide

/-- C7: starting from the empty store, with the signup ip policy of 3 per
15 minutes and identifier "9.9.9.9", three sequential `checkSignupRateLimit`
calls admit with remaining 2, 1 and 0, and the fourth denies with
`limitType` ip, limit 3 and remaining 0. -/
theorem c7_scenario_A :
    RATE_LIMIT_CONFIG.SIGNUP.IP.LIMIT = 3 ∧
    RATE_LIMIT_CONFIG.SIGNUP.IP.WINDOW = 900000 ∧
    (checkSignupRateLimit noFailure 0 "9.9.9.9" "user@example.com"
        Store.empty).1 =
      { allowed := true, limitType := none, limit := none,
        remaining := some 2, resetAt := none } ∧
    (checkSignupRateLimit noFailure 0 "9.9.9.9" "user@example.com"
        (checkSignupRateLimit noFailure 0 "9.9.9.9" "user@example.com"
          Store.empty).2).1 =
      { allowed := true, limitType := none, limit := none,
        remaining := some 1, resetAt := none } ∧
    (checkSignupRateLimit noFailure 0 "9.9.9.9" "user@example.com"
        (checkSignupRateLimit noFailure 0 "9.9.9.9" "user@example.com"
          (checkSignupRateLimit noFailure 0 "9.9.9.9" "user@example.com"
            Store.empty).2).2).1 =
      { allowed := true, limitType := none, limit := none,
        remaining := some 0, resetAt := none } ∧
    (checkSignupRateLimit noFailure 0 "9.9.9.9" "user@example.com"
        (checkSignupRateLimit noFailure 0 "9.9.9.9" "user@example.com"
          (checkSignupRateLimit noFailure 0 "9.9.9.9" "user@example.com"
            (checkSignupRateLimit noFailure 0 "9.9.9.9" "user@example.com"
              Store.empty).2).2).2).1 =
      { allowed := false, limitType := some .ip, limit := some 3,
        remaining := some 0, resetAt := some 900000 } := by
  simp only [scenarioA_step1, scenarioA_step2, scenarioA_step3, scenarioA_step4]
  refine ⟨rfl, rfl, ?_, ?_, ?_, ?_⟩ <;> trivial

set_option maxRecDepth 8000 in
/-- C8 as stated is false for email identifiers that are not already
lower-cased: the checker lower-cases the email but `resetRateLimit` deletes
the verbatim key, so resetting "A@B.C" deletes an unused key and the
following check for "A@B.C" still denies, unlike a brand-new identifier. -/
theorem c8_counterexample :
    jsToLower "A@B.C" = "a@b.c" ∧
    (checkSignupRateLimit noFailure 0 "7.7.7.7" "A@B.C"
        (resetRateLimit .email "A@B.C" emailFullStore)).1.allowed = false ∧
    emailFullStore.get (scopeKey RATE_LIMIT_CONFIG.SIGNUP.EMAIL
        (jsToLower "new@b.c")) = none ∧
    (checkSignupRateLimit noFailure 0 "7.7.7.7" "new@b.c"
        emailFullStore).1.allowed = true := by
  decide

/-- C8 amended: `resetRateLimit` followed immediately by a check is
indistinguishable from a first-ever check for a brand-new identifier for
ip identifiers, for email identifiers that are already lower-cased, and for
the global scope; for an email identifier containing upper-case letters the
delete misses the key the checker uses. -/
theorem c8_reset_then_check_like_fresh :
    (∀ (now : Nat) (ip ip2 email : String) (s : Store),
      s.get (scopeKey RATE_LIMIT_CONFIG.SIGNUP.IP ip2) = none →
      (checkSignupRateLimit noFailure now ip email (resetRateLimit .ip ip s)).1 =
      (checkSignupRateLimit noFailure now ip2 email s).1)
  ∧ (∀ (now : Nat) (ip email email2 : String) (s : Store),
      jsToLower email = email →
      s.get (scopeKey RATE_LIMIT_CONFIG.SIGNUP.EMAIL (jsToLower email2)) = none →
      (checkSignupRateLimit noFailure now ip email (resetRateLimit .email email s)).1 =
      (checkSignupRateLimit noFailure now ip email2 s).1)
  ∧ (∀ (now : Nat) (ip email : String) (s s2 : Store),
      s2.get (scopeKey RATE_LIMIT_CONFIG.SIGNUP.GLOBAL "global") = none →
      s2.get (scopeKey RATE_LIMIT_CONFIG.SIGNUP.IP ip) =
        s.get (scopeKey RATE_LIMIT_CONFIG.SIGNUP.IP ip) →
      s2.get (scopeKey RATE_LIMIT_CONFIG.SIGNUP.EMAIL (jsToLower email)) =
        s.get (scopeKey RATE_LIMIT_CONFIG.SIGNUP.EMAIL (jsToLower email)) →
      (checkSignupRateLimit noFailure now ip email (resetRateLimit .global "global" s)).1 =
      (checkSignupRateLimit noFailure now ip email s2).1) := by
  refine ⟨?_, ?_, ?_⟩
  · intro now ip ip2 email s hfresh
    apply checkSignupRateLimit_fst_congr
    · rw [show resetRateLimit .ip ip s =
          s.del (scopeKey RATE_LIMIT_CONFIG.SIGNUP.IP ip) from rfl,
        Store.get_del, if_neg (signup_global_key_ne_ip ip)]
    · rw [show resetRateLimit .ip ip s =
          s.del (scopeKey RATE_LIMIT_CONFIG.SIGNUP.IP ip) from rfl,
        Store.get_del, if_pos rfl, hfresh]
    · rw [show resetRateLimit .ip ip s =
          s.del (scopeKey RATE_LIMIT_CONFIG.SIGNUP.IP ip) from rfl,
        Store.get_del, if_neg (signup_ip_key_ne_email ip (jsToLower email)).symm]
  · intro now ip email email2 s hnorm hfresh
    apply checkSignupRateLimit_fst_congr
    · rw [show resetRateLimit .email email s =
          s.del ("ratelimit:signup:email:" ++ email) from rfl]
      rw [show ("ratelimit:signup:email:" ++ email : String) =
          scopeKey RATE_LIMIT_CONFIG.SIGNUP.EMAIL (jsToLower email) by
            rw [hnorm]; rfl]
      rw [Store.get_del, if_neg (signup_global_key_ne_email (jsToLower email))]
    · rw [show resetRateLimit .email email s =
          s.del ("ratelimit:signup:email:" ++ email) from rfl]
      rw [show ("ratelimit:signup:email:" ++ email : String) =
          scopeKey RATE_LIMIT_CONFIG.SIGNUP.EMAIL (jsToLower email) by
            rw [hnorm]; rfl]
      rw [Store.get_del, if_neg (signup_ip_key_ne_email ip (jsToLower email))]
    · rw [show resetRateLimit .email email s =
          s.del ("ratelimit:signup:email:" ++ email) from rfl]
      rw [show ("ratelimit:signup:email:" ++ email : String) =
          scopeKey RATE_LIMIT_CONFIG.SIGNUP.EMAIL (jsToLower email) by
            rw [hnorm]; rfl]
      rw [Store.get_del, if_pos rfl, hfresh]
  · intro now ip email s s2 hg hip hem
    apply checkSignupRateLimit_fst_congr
    · rw [show resetRateLimit .global "global" s =
          s.del (scopeKey RATE_LIMIT_CONFIG.SIGNUP.GLOBAL "global") from rfl,
        Store.get_del, if_pos rfl, hg]
    · rw [show resetRateLimit .global "global" s =
          s.del (scopeKey RATE_LIMIT_CONFIG.SIGNUP.GLOBAL "global") from rfl,
        Store.get_del, if_neg (signup_global_key_ne_ip ip).symm, hip]
    · rw [show resetRateLimit .global "global" s =
          s.del (scopeKey RATE_LIMIT_CONFIG.SIGNUP.GLOBAL "global") from rfl,
        Store.get_del, if_neg (signup_global_key_ne_email (jsToLower email)).symm,
        hem]

set_option maxRecDepth 8000 in
/-- Witness for the amended C8: resetting an exhausted ip counter and
checking again equals a first-ever check for a fresh address. -/
theorem c8_reset_then_check_like_fresh_witness :
    Store.get [("ratelimit:signup:ip:5.5.5.5",
       { windowStart := 0, current := 3, previous := 0 })]
        (scopeKey RATE_LIMIT_CONFIG.SIGNUP.IP "6.6.6.6") = none ∧
    (checkSignupRateLimit noFailure 0 "5.5.5.5" "a@b.c"
        (resetRateLimit .ip "5.5.5.5"
          [("ratelimit:signup:ip:5.5.5.5",
            { windowStart := 0, current := 3, previous := 0 })])).1 =
    (checkSignupRateLimit noFailure 0 "6.6.6.6" "a@b.c"
        [("ratelimit:signup:ip:5.5.5.5",
          { windowStart := 0, current := 3, previous := 0 })]).1 :=
  ⟨by decide,
   (c8_reset_then_check_like_fresh).1 0 "5.5.5.5" "6.6.6.6" "a@b.c"
     [("ratelimit:signup:ip:5.5.5.5",
       { windowStart := 0, current := 3, previous := 0 })] (by decide)⟩

/-- C9 as stated is false for a present-but-empty `x-forwarded-for` header:
JS truthiness treats the empty header value like an absent header, so the
extractor falls through to `x-real-ip` instead of returning the (empty)
first entry of `x-forwarded-for`. -/
theorem c9_counterexample :
    getClientIp (some "") (some "5.6.7.8") = "5.6.7.8" ∧
    String.mk (((splitOnCommaChars ("" : String).data).map trimChars).headD []) = "" ∧
    ("5.6.7.8" : String) ≠ "" := by
  decide

/-- C9 amended: the client address is the first comma-separated, trimmed
entry of `x-forwarded-for` when that header is present and non-empty;
otherwise `x-real-ip` when present and non-empty; otherwise the
direct-connection placeholder `127.0.0.1`. -/
theorem c9_client_ip (forwardedFor realIp : Option String) :
    (∀ v, forwardedFor = some v → v ≠ "" →
      getClientIp forwardedFor realIp =
        String.mk (((splitOnCommaChars v.data).map trimChars).headD []))
  ∧ (truthy forwardedFor = false → ∀ r, realIp = some r → r ≠ "" →
      getClientIp forwardedFor realIp = r)
  ∧ (truthy forwardedFor = false → truthy realIp = false →
      getClientIp forwardedFor realIp = "127.0.0.1") := by
  refine ⟨?_, ?_, ?_⟩
  · intro v hv hne
    subst hv
    simp [getClientIp, truthy, hne]
  · intro hf r hr hne
    subst hr
    simp only [getClientIp, hf]
    simp [truthy, hne]
  · intro hf hr
    simp only [getClientIp, hf, hr]
    simp

/-- Witness for the amended C9 on concrete headers, including trimming and
first-entry selection. -/
theorem c9_client_ip_witness :
    getClientIp (some " 1.2.3.4 , 9.9.9.9") (some "8.8.8.8") =
      String.mk (((splitOnCommaChars (" 1.2.3.4 , 9.9.9.9" : String).data).map
        trimChars).headD []) ∧
    getClientIp (some " 1.2.3.4 , 9.9.9.9") (some "8.8.8.8") = "1.2.3.4" ∧
    getClientIp none (some "8.8.8.8") = "8.8.8.8" ∧
    getClientIp none none = "127.0.0.1" :=
  ⟨(c9_client_ip (some " 1.2.3.4 , 9.9.9.9") (some "8.8.8.8")).1 _ rfl (by decide),
   by decide,
   (c9_client_ip none (some "8.8.8.8")).2.1 rfl _ rfl (by decide),
   (c9_client_ip none none).2.2 rfl rfl⟩

/-- The final store of the parallel variant: all three scope increments are
applied whatever the verdict. -/
theorem checkSignupRateLimitP_snd (now : Nat) (ip email : String) (s : Store) :
    (checkSignupRateLimitP noFailure now ip email s).2 =
    (slidingWindowLimit RATE_LIMIT_CONFIG.SIGNUP.EMAIL now
      (scopeKey RATE_LIMIT_CONFIG.SIGNUP.EMAIL (jsToLower email))
      ((slidingWindowLimit RATE_LIMIT_CONFIG.SIGNUP.IP now
        (scopeKey RATE_LIMIT_CONFIG.SIGNUP.IP ip)
        ((slidingWindowLimit RATE_LIMIT_CONFIG.SIGNUP.GLOBAL now
          (scopeKey RATE_LIMIT_CONFIG.SIGNUP.GLOBAL "global") s).2)).2)).2 := by
  simp only [checkSignupRateLimitP, limitCall, noFailure]
  simp only [Bool.false_eq_true, if_false]
  repeat' split
  all_goals rfl

/-- In the parallel variant the ip-scope increment lands even when the
verdict is decided by another scope: the final store holds the ip bucket of
the initial store incremented by one. -/
theorem checkSignupRateLimitP_increments_ip (now : Nat) (ip email : String)
    (s : Store) :
    ((checkSignupRateLimitP noFailure now ip email s).2).get
        (scopeKey RATE_LIMIT_CONFIG.SIGNUP.IP ip) =
      some { windowStart := now / RATE_LIMIT_CONFIG.SIGNUP.IP.WINDOW *
               RATE_LIMIT_CONFIG.SIGNUP.IP.WINDOW
             current := (bucketsAt (s.get (scopeKey RATE_LIMIT_CONFIG.SIGNUP.IP ip))
               (now / RATE_LIMIT_CONFIG.SIGNUP.IP.WINDOW *
                RATE_LIMIT_CONFIG.SIGNUP.IP.WINDOW)
               RATE_LIMIT_CONFIG.SIGNUP.IP.WINDOW).1 + 1
             previous := (bucketsAt (s.get (scopeKey RATE_LIMIT_CONFIG.SIGNUP.IP ip))
               (now / RATE_LIMIT_CONFIG.SIGNUP.IP.WINDOW *
                RATE_LIMIT_CONFIG.SIGNUP.IP.WINDOW)
               RATE_LIMIT_CONFIG.SIGNUP.IP.WINDOW).2 } := by
  rw [checkSignupRateLimitP_snd,
      slidingWindowLimit_get_ne _ _ _ _ _
        (signup_ip_key_ne_email ip (jsToLower email))]
  simp [slidingWindowLimit, Store.get_set, (signup_global_key_ne_ip ip).symm]

/-- In the parallel variant the email-scope increment also lands whatever
the verdict. -/
theorem checkSignupRateLimitP_increments_email (now : Nat) (ip email : String)
    (s : Store) :
    ((checkSignupRateLimitP noFailure now ip email s).2).get
        (scopeKey RATE_LIMIT_CONFIG.SIGNUP.EMAIL (jsToLower email)) =
      some { windowStart := now / RATE_LIMIT_CONFIG.SIGNUP.EMAIL.WINDOW *
               RATE_LIMIT_CONFIG.SIGNUP.EMAIL.WINDOW
             current := (bucketsAt
               (s.get (scopeKey RATE_LIMIT_CONFIG.SIGNUP.EMAIL (jsToLower email)))
               (now / RATE_LIMIT_CONFIG.SIGNUP.EMAIL.WINDOW *
                RATE_LIMIT_CONFIG.SIGNUP.EMAIL.WINDOW)
               RATE_LIMIT_CONFIG.SIGNUP.EMAIL.WINDOW).1 + 1
             previous := (bucketsAt
               (s.get (scopeKey RATE_LIMIT_CONFIG.SIGNUP.EMAIL (jsToLower email)))
               (now / RATE_LIMIT_CONFIG.SIGNUP.EMAIL.WINDOW *
                RATE_LIMIT_CONFIG.SIGNUP.EMAIL.WINDOW)
               RATE_LIMIT_CONFIG.SIGNUP.EMAIL.WINDOW).2 } := by
  rw [checkSignupRateLimitP_snd]
  simp [slidingWindowLimit, Store.get_set,
    (signup_global_key_ne_email (jsToLower email)).symm,
    (signup_ip_key_ne_email ip (jsToLower email)).symm,
    (signup_global_key_ne_ip ip).symm]
end RateLimit
